import Mathlib

/-!
Verification of the nojoy device-enumeration core (src/devenum.rs and
src/devenum/setupdienum.rs) against its specification.

The Rust module is embedded shallowly.  Platform calls (SetupDi* and CM_*)
are modelled by an explicit environment: every device node carries the
responses the platform gives for the reads the module can issue against it,
and every top-level operation additionally records which device-set lifecycle
calls it makes.  A Rust panic (an unwrap on a decode failure, or a slice
index out of range) is modelled as the value none of an Option-typed result.
Machine integers are Nat with explicit mod where width matters; byte buffers
are List Nat of u8 values and UTF-16 buffers List Nat of u16 values.
-/

namespace Nojoy

instance instDecEqExcept {e a : Type} [DecidableEq e] [DecidableEq a] :
    DecidableEq (Except e a) := fun x y =>
  match x, y with
  | Except.ok u, Except.ok v =>
    if h : u = v then isTrue (congrArg Except.ok h)
    else isFalse (fun q => h (Except.ok.inj q))
  | Except.error u, Except.error v =>
    if h : u = v then isTrue (congrArg Except.error h)
    else isFalse (fun q => h (Except.error.inj q))
  | Except.ok _, Except.error _ => isFalse (fun q => Except.noConfusion q)
  | Except.error _, Except.ok _ => isFalse (fun q => Except.noConfusion q)

/-- DN_STARTED bit of the devnode status bitflags (Windows SDK cfg.h). -/
def DN_STARTED : Nat := 0x00000008

/-- DN_DISABLEABLE bit of the devnode status bitflags (Windows SDK cfg.h). -/
def DN_DISABLEABLE : Nat := 0x00002000

/-- CR_SUCCESS configuration-manager return code. -/
def CR_SUCCESS : Nat := 0

/-- CR_NO_SUCH_DEVNODE configuration-manager return code. -/
def CR_NO_SUCH_DEVNODE : Nat := 0x0000000D

/-- ERROR_INSUFFICIENT_BUFFER Win32 error code.  The source compares the
HRESULT form of the same code; the comparison structure is identical. -/
def ERROR_INSUFFICIENT_BUFFER : Nat := 122

/-- GameControllerStatus from devenum.rs. -/
inductive GameControllerStatus
  | Enabled
  | Disabled
  | Disconnected
deriving DecidableEq

/-- Error from devenum.rs.  Platform error payloads are kept as the native
numeric codes. -/
inductive Error
  | NotFound
  | Win32 (code : Nat)
  | ConfigRet (code : Nat)
deriving DecidableEq

/-- The u16 view of a byte buffer taken by from_raw_parts in devenum.rs:
little-endian pairs, length buf.len() / 2 (a trailing odd byte is dropped).
Byte values are reduced mod 256 to reflect the u8 element type. -/
def u16sOfBytes : List Nat → List Nat
  | b0 :: b1 :: rest => (b0 % 256 + (b1 % 256) * 256) :: u16sOfBytes rest
  | _ => []

/-- UTF-16 decoding with the semantics of Rust String::from_utf16: BMP
non-surrogate code units pass through, a high surrogate must be followed by a
low surrogate, and anything else is a decode error (none). -/
def utf16DecodeList : List Nat → Option (List Char)
  | [] => some []
  | c :: rest =>
    if c < 0xD800 ∨ 0xE000 ≤ c then
      (utf16DecodeList rest).map (fun l => Char.ofNat c :: l)
    else if c < 0xDC00 then
      match rest with
      | c2 :: rest2 =>
        if 0xDC00 ≤ c2 ∧ c2 < 0xE000 then
          (utf16DecodeList rest2).map
            (fun l => Char.ofNat (0x10000 + (c - 0xD800) * 0x400 + (c2 - 0xDC00)) :: l)
        else none
      | [] => none
    else none

/-- UTF-16 decoding with the semantics of OsString::from_wide followed by
to_string_lossy: every unpaired surrogate becomes U+FFFD, never a failure. -/
def utf16DecodeLossyList : List Nat → List Char
  | [] => []
  | c :: rest =>
    if c < 0xD800 ∨ 0xE000 ≤ c then
      Char.ofNat c :: utf16DecodeLossyList rest
    else if c < 0xDC00 then
      match rest with
      | c2 :: rest2 =>
        if 0xDC00 ≤ c2 ∧ c2 < 0xE000 then
          Char.ofNat (0x10000 + (c - 0xD800) * 0x400 + (c2 - 0xDC00)) ::
            utf16DecodeLossyList rest2
        else Char.ofNat 0xFFFD :: utf16DecodeLossyList (c2 :: rest2)
      | [] => [Char.ofNat 0xFFFD]
    else Char.ofNat 0xFFFD :: utf16DecodeLossyList rest

/-- from_utf16_in_u8 in devenum.rs.  The end index is the position of the
first zero code unit in the u16 slice, with buf.len() — the BYTE length — as
the fallback; since slice[..end] demands end ≤ slice.len(), a non-empty
buffer without a zero code unit is a panic (none), as is invalid UTF-16 under
the unwrap. -/
def from_utf16_in_u8 (buf : List Nat) : Option String :=
  let slice := u16sOfBytes buf
  let e := ((slice.findIdx? (fun c => c == 0)).getD buf.length)
  if e ≤ slice.length then
    (utf16DecodeList (slice.take e)).map (fun cs => String.mk cs)
  else none

/-- The slice split on zero code units inside multi_sz_from_utf16_in_u8,
with Rust slice::split semantics: empty segments are produced by leading,
consecutive and trailing separators, and the empty slice yields one empty
segment. -/
def splitOnZero : List Nat → List (List Nat)
  | [] => [[]]
  | c :: rest =>
    if c = 0 then [] :: splitOnZero rest
    else
      match splitOnZero rest with
      | s :: ss => (c :: s) :: ss
      | [] => [[c]]

/-- The map of String::from_utf16(..).unwrap() over the retained segments in
multi_sz_from_utf16_in_u8; a decode failure in any segment is a panic
(none). -/
def decodeSegs : List (List Nat) → Option (List String)
  | [] => some []
  | s :: rest =>
    match utf16DecodeList s with
    | none => none
    | some cs =>
      match decodeSegs rest with
      | none => none
      | some r => some (String.mk cs :: r)

/-- multi_sz_from_utf16_in_u8 in devenum.rs: view the bytes as u16, split on
zero code units, drop empty segments, decode each segment. -/
def multi_sz_from_utf16_in_u8 (buf : List Nat) : Option (List String) :=
  decodeSegs ((splitOnZero (u16sOfBytes buf)).filter (fun p => !p.isEmpty))

/-- is_game_controller in devenum.rs. -/
def is_game_controller (hwids : List String) : Bool :=
  hwids.any (fun s => s == "HID_DEVICE_SYSTEM_GAME")

/-- The platform side of one two-phase registry-property read
(SetupDiGetDeviceRegistryPropertyW): the outcome of the size-query call, the
required size it reports, the outcome of the fetch call, and the bytes the
platform leaves in the allocated buffer. -/
structure PropRead where
  sizeQuery : Except Nat Unit
  bufLen : Nat
  fetch : Except Nat Unit
  content : List Nat
deriving DecidableEq

/-- The platform side of the two-phase instance-id read
(SetupDiGetDeviceInstanceIdW); the buffer here is a u16 buffer. -/
structure InstIdRead where
  sizeQuery : Except Nat Unit
  reqSize : Nat
  fetch : Except Nat Unit
  content : List Nat
deriving DecidableEq

/-- assert_insufficient_buffer in devenum.rs: ERROR_INSUFFICIENT_BUFFER is
the success signal of a size query, every other failure propagates. -/
def assert_insufficient_buffer : Except Nat Unit → Except Error Unit
  | Except.ok _ => Except.ok ()
  | Except.error x =>
    if x = ERROR_INSUFFICIENT_BUFFER then Except.ok () else Except.error (Error.Win32 x)

/-- prop_bufsize in devenum.rs. -/
def prop_bufsize (p : PropRead) : Except Error Nat :=
  match assert_insufficient_buffer p.sizeQuery with
  | Except.error e => Except.error e
  | Except.ok _ => Except.ok p.bufLen

/-- device_prop_sz in devenum.rs; the outer none models a panic inside
from_utf16_in_u8. -/
def device_prop_sz (p : PropRead) : Option (Except Error String) :=
  match prop_bufsize p with
  | Except.error e => some (Except.error e)
  | Except.ok _ =>
    match p.fetch with
    | Except.error x => some (Except.error (Error.Win32 x))
    | Except.ok _ => (from_utf16_in_u8 p.content).map (fun s => Except.ok s)

/-- device_prop_multi_sz in devenum.rs. -/
def device_prop_multi_sz (p : PropRead) : Option (Except Error (List String)) :=
  match prop_bufsize p with
  | Except.error e => some (Except.error e)
  | Except.ok _ =>
    match p.fetch with
    | Except.error x => some (Except.error (Error.Win32 x))
    | Except.ok _ => (multi_sz_from_utf16_in_u8 p.content).map (fun l => Except.ok l)

/-- device_instance_id in devenum.rs: the same two-phase protocol against
SetupDiGetDeviceInstanceIdW, but the whole buffer is decoded with
OsString::from_wide + to_string_lossy — no trimming at a null code unit and
no panic. -/
def device_instance_id (p : InstIdRead) : Except Error String :=
  match assert_insufficient_buffer p.sizeQuery with
  | Except.error e => Except.error e
  | Except.ok _ =>
    match p.fetch with
    | Except.error x => Except.error (Error.Win32 x)
    | Except.ok _ => Except.ok (String.mk (utf16DecodeLossyList p.content))

/-- device_status_flags in devenum.rs, as a function of the platform
response of CM_Get_DevNode_Status: its CONFIGRET code and the flags it
reports. -/
def device_status_flags (ret : Nat) (flags : Nat) : Except Error Nat :=
  if ret = CR_SUCCESS then Except.ok flags
  else if ret = CR_NO_SUCH_DEVNODE then Except.ok 0
  else Except.error (Error.ConfigRet ret)

/-- One SP_DEVINFO_DATA node yielded by SetupDiEnumDeviceInfo, together with
the platform responses the module can observe for it. -/
structure DevNode where
  devInst : Nat
  hwidRead : PropRead
  descRead : PropRead
  mfgRead : PropRead
  instIdRead : InstIdRead
  statusRet : Nat
  statusFlags : Nat
  cmEnableRet : Nat
  cmDisableRet : Nat
deriving DecidableEq

/-- Platform environment of one top-level operation: the outcome of
SetupDiGetClassDevsW, the nodes SetupDiEnumDeviceInfo yields in index order
(the iterator in setupdienum.rs stops at the first failing index), and the
outcome of SetupDiDestroyDeviceInfoList. -/
structure Env where
  acquireRet : Except Nat Unit
  nodes : List DevNode
  destroyRet : Except Nat Unit
deriving DecidableEq

/-- Device-set lifecycle calls an operation makes, in order. -/
inductive Ev
  | acquire
  | destroy
deriving DecidableEq

/-- GameController from devenum.rs. -/
structure GameController where
  manufacturer : String
  name : String
  instance_id : String
  status : GameControllerStatus
  disableable : Bool
deriving DecidableEq

/-- The status match inside GameController::try_from_devinfo. -/
def derive_status (flags : Nat) : GameControllerStatus :=
  if flags = 0 then GameControllerStatus.Disconnected
  else if flags &&& DN_STARTED = 0 then GameControllerStatus.Disabled
  else GameControllerStatus.Enabled

/-- GameController::try_from_devinfo in devenum.rs.  none models a panic in
one of the property decodes. -/
def GameController.try_from_devinfo (n : DevNode) : Option (Except Error GameController) :=
  match device_prop_sz n.descRead with
  | none => none
  | some (Except.error e) => some (Except.error e)
  | some (Except.ok name) =>
    match device_prop_sz n.mfgRead with
    | none => none
    | some (Except.error e) => some (Except.error e)
    | some (Except.ok manufacturer) =>
      match device_instance_id n.instIdRead with
      | Except.error e => some (Except.error e)
      | Except.ok instance_id =>
        match device_status_flags n.statusRet n.statusFlags with
        | Except.error e => some (Except.error e)
        | Except.ok flags =>
          some (Except.ok
            { manufacturer := manufacturer
              name := name
              instance_id := instance_id
              status := derive_status flags
              disableable := flags &&& DN_DISABLEABLE != 0 })

/-- The hardware-id filter closure in enum_game_controllers:
device_prop_multi_sz(..).is_ok_and(is_game_controller).  none models a panic
inside the multi-string decode. -/
def hwid_filter (n : DevNode) : Option Bool :=
  (device_prop_multi_sz n.hwidRead).map
    (fun r => match r with
      | Except.ok l => is_game_controller l
      | Except.error _ => false)

/-- enum_game_controllers in devenum.rs, run to completion over the nodes the
device set yields: the lazily filtered sequence, as the list it produces.
none models a panic in some hardware-id decode. -/
def enum_game_controllers : List DevNode → Option (List DevNode)
  | [] => some []
  | n :: rest =>
    match hwid_filter n with
    | none => none
    | some b =>
      match enum_game_controllers rest with
      | none => none
      | some r => some (if b then n :: r else r)

/-- The iterator chain inside game_controllers:
enum_game_controllers(devinfo).filter_map(|d| try_from_devinfo(..).ok())
collected into a vector, with node-by-node evaluation order and panic
propagation. -/
def collect_game_controllers : List DevNode → Option (List GameController)
  | [] => some []
  | n :: rest =>
    match hwid_filter n with
    | none => none
    | some false => collect_game_controllers rest
    | some true =>
      match GameController.try_from_devinfo n with
      | none => none
      | some (Except.error _) => collect_game_controllers rest
      | some (Except.ok gc) =>
        match collect_game_controllers rest with
        | none => none
        | some r => some (gc :: r)

/-- game_controllers in devenum.rs, with its device-set lifecycle trace. -/
def game_controllers (env : Env) : Option (Except Error (List GameController)) × List Ev :=
  match env.acquireRet with
  | Except.error x => (some (Except.error (Error.Win32 x)), [])
  | Except.ok _ =>
    match collect_game_controllers env.nodes with
    | none => (none, [Ev.acquire])
    | some result =>
      match env.destroyRet with
      | Except.error x => (some (Except.error (Error.Win32 x)), [Ev.acquire, Ev.destroy])
      | Except.ok _ => (some (Except.ok result), [Ev.acquire, Ev.destroy])

/-- devinfo_data in devenum.rs: the first node of the filtered enumeration
whose resolved instance id equals the argument; resolution failures are
discarded by .ok().  Laziness of .next() is kept: nodes after the first
match are never touched.  The outer none models a panic. -/
def devinfo_data (nodes : List DevNode) (id : String) : Option (Option DevNode) :=
  match nodes with
  | [] => some none
  | n :: rest =>
    match hwid_filter n with
    | none => none
    | some false => devinfo_data rest id
    | some true =>
      match device_instance_id n.instIdRead with
      | Except.error _ => devinfo_data rest id
      | Except.ok iid => if iid = id then some (some n) else devinfo_data rest id

/-- enable_device in devenum.rs, with its device-set lifecycle trace.  The
source contains no SetupDiDestroyDeviceInfoList call on any of its paths. -/
def enable_device (env : Env) (id : String) : Option (Except Error Unit) × List Ev :=
  match env.acquireRet with
  | Except.error x => (some (Except.error (Error.Win32 x)), [])
  | Except.ok _ =>
    match devinfo_data env.nodes id with
    | none => (none, [Ev.acquire])
    | some none => (some (Except.error Error.NotFound), [Ev.acquire])
    | some (some data) =>
      if data.cmEnableRet = CR_SUCCESS then (some (Except.ok ()), [Ev.acquire])
      else (some (Except.error (Error.ConfigRet data.cmEnableRet)), [Ev.acquire])

/-- disable_device in devenum.rs, with its device-set lifecycle trace.  The
source contains no SetupDiDestroyDeviceInfoList call on any of its paths. -/
def disable_device (env : Env) (id : String) : Option (Except Error Unit) × List Ev :=
  match env.acquireRet with
  | Except.error x => (some (Except.error (Error.Win32 x)), [])
  | Except.ok _ =>
    match devinfo_data env.nodes id with
    | none => (none, [Ev.acquire])
    | some none => (some (Except.error Error.NotFound), [Ev.acquire])
    | some (some data) =>
      if data.cmDisableRet = CR_SUCCESS then (some (Except.ok ()), [Ev.acquire])
      else (some (Except.error (Error.ConfigRet data.cmDisableRet)), [Ev.acquire])

/-- The combined predicate applied node by node inside devinfo_data: the node
passes the hardware-id filter and its resolved instance id equals the
argument. -/
def matchesId (id : String) (n : DevNode) : Bool :=
  decide (hwid_filter n = some true) && decide (device_instance_id n.instIdRead = Except.ok id)

/-- The records game_controllers collects when no decode panics: nodes that
pass the hardware-id filter and whose record construction succeeds, in
enumeration order. -/
def collectOk (nodes : List DevNode) : List GameController :=
  nodes.filterMap (fun n =>
    match hwid_filter n, GameController.try_from_devinfo n with
    | some true, some (Except.ok gc) => some gc
    | _, _ => none)

/-- Concatenation helper for building byte buffers. -/
def flat2 : List (List Nat) → List Nat
  | [] => []
  | l :: ls => l ++ flat2 ls

/-- Serialize a list of u16 code units as a little-endian byte buffer. -/
def toBytes (us : List Nat) : List Nat :=
  flat2 (us.map (fun u => [u % 256, u / 256 % 256]))

/-- The UTF-16 code units of a string of BMP characters. -/
def strUnits (s : String) : List Nat :=
  s.data.map Char.toNat

/-- The REG_MULTI_SZ layout: every segment followed by a null separator, and
a final null terminator. -/
def encodeMultiSz (segs : List (List Nat)) : List Nat :=
  flat2 (segs.map (fun s => s ++ [0])) ++ [0]

/-- Byte buffer of the hardware-id property holding exactly the
game-controller marker string. -/
def markerBytes : List Nat := toBytes (strUnits "HID_DEVICE_SYSTEM_GAME" ++ [0, 0])

/-- A two-phase property read that succeeds and delivers the given bytes. -/
def okPropRead (content : List Nat) : PropRead :=
  { sizeQuery := Except.ok (), bufLen := content.length, fetch := Except.ok (), content := content }

/-- A node whose every read succeeds: hardware id is the marker, description
"A", manufacturer "B", instance-id buffer "C" plus its null terminator,
status flags DN_STARTED plus DN_DISABLEABLE. -/
def fullNode : DevNode :=
  { devInst := 1
    hwidRead := okPropRead markerBytes
    descRead := okPropRead (toBytes [65, 0])
    mfgRead := okPropRead (toBytes [66, 0])
    instIdRead := { sizeQuery := Except.ok (), reqSize := 2, fetch := Except.ok (), content := [67, 0] }
    statusRet := 0
    statusFlags := 0x2008
    cmEnableRet := 0
    cmDisableRet := 0 }

/-- The GameController record fullNode constructs to.  Its instance id keeps
the trailing null code unit of the platform buffer. -/
def gcVal : GameController :=
  { manufacturer := "B"
    name := "A"
    instance_id := String.mk [Char.ofNat 67, Char.ofNat 0]
    status := GameControllerStatus.Enabled
    disableable := true }

/-- A filter-passing node whose description buffer holds a lone high
surrogate: String::from_utf16(..).unwrap() on it is a panic. -/
def badNode : DevNode :=
  { fullNode with descRead := okPropRead [0x00, 0xD8, 0x00, 0x00], devInst := 2 }

/-- A filter-passing node whose description property does not exist: the size
query fails with a code other than ERROR_INSUFFICIENT_BUFFER. -/
def errNode : DevNode :=
  { fullNode with
    descRead := { sizeQuery := Except.error 13, bufLen := 0, fetch := Except.ok (), content := [] }
    devInst := 3 }

/-- A node whose hardware-id property cannot be read at all. -/
def noMarkNode : DevNode :=
  { fullNode with
    hwidRead := { sizeQuery := Except.error 5, bufLen := 0, fetch := Except.ok (), content := [] }
    devInst := 4 }

/-- Environment with a successfully acquired, empty device set. -/
def emptyEnv : Env := { acquireRet := Except.ok (), nodes := [], destroyRet := Except.ok () }

/-- Environment holding one well-behaved node and one node with a malformed
description buffer. -/
def envPanic : Env := { acquireRet := Except.ok (), nodes := [fullNode, badNode], destroyRet := Except.ok () }

/-- Environment holding one node with a missing description property and one
well-behaved node. -/
def envDrop : Env := { acquireRet := Except.ok (), nodes := [errNode, fullNode], destroyRet := Except.ok () }

/-- An instance-id buffer holding "A" followed by its null terminator. -/
def instIdReadA : InstIdRead :=
  { sizeQuery := Except.ok (), reqSize := 2, fetch := Except.ok (), content := [65, 0] }

/-! ## Helper lemmas -/

theorem utf16DecodeList_ne_nil (s : List Nat) (cs : List Char)
    (h : utf16DecodeList s = some cs) (hne : s ≠ []) : cs ≠ [] := by
  cases s with
  | nil => exact absurd rfl hne
  | cons c rest =>
    unfold utf16DecodeList at h
    split at h
    · rcases Option.map_eq_some'.mp h with ⟨l, _, hl⟩
      simp [← hl]
    · split at h
      · split at h
        · split at h
          · rcases Option.map_eq_some'.mp h with ⟨l, _, hl⟩
            simp [← hl]
          · exact absurd h (by simp)
        · exact absurd h (by simp)
      · exact absurd h (by simp)

theorem decodeSegs_no_empty (segs : List (List Nat)) (out : List String)
    (h : decodeSegs segs = some out) (hne : ∀ p ∈ segs, p ≠ []) :
    ∀ s ∈ out, s ≠ "" := by
  induction segs generalizing out with
  | nil =>
    unfold decodeSegs at h
    cases h
    intro s hs
    exact absurd hs (List.not_mem_nil s)
  | cons p rest ih =>
    unfold decodeSegs at h
    split at h
    · exact absurd h (by simp)
    · rename_i cs hcs
      split at h
      · exact absurd h (by simp)
      · rename_i r hr
        cases h
        intro s hs
        rcases List.mem_cons.mp hs with hs1 | hs2
        · subst hs1
          intro hemp
          exact utf16DecodeList_ne_nil p cs hcs (hne p (by simp)) (congrArg String.data hemp)
        · exact ih r hr (fun q hq => hne q (by simp [hq])) s hs2

theorem u16sOfBytes_toBytes (us : List Nat) (h : ∀ u ∈ us, u < 65536) :
    u16sOfBytes (toBytes us) = us := by
  induction us with
  | nil => rfl
  | cons u rest ih =>
    have hu : u < 65536 := h u (by simp)
    have hb : toBytes (u :: rest) = (u % 256) :: (u / 256 % 256) :: toBytes rest := by
      simp [toBytes, flat2]
    rw [hb]
    unfold u16sOfBytes
    rw [ih (fun v hv => h v (by simp [hv]))]
    congr 1
    omega

theorem splitOnZero_cons_ne (c : Nat) (l : List Nat) (hc : c ≠ 0) :
    splitOnZero (c :: l) =
      match splitOnZero l with
      | s :: ss => (c :: s) :: ss
      | [] => [[c]] := by
  conv_lhs => unfold splitOnZero
  rw [if_neg hc]

theorem splitOnZero_append (s rest : List Nat) (h : ∀ c ∈ s, c ≠ 0) :
    splitOnZero (s ++ 0 :: rest) = s :: splitOnZero rest := by
  induction s with
  | nil => simp [splitOnZero]
  | cons c s2 ih =>
    have hc : c ≠ 0 := h c (by simp)
    have ih2 := ih (fun x hx => h x (by simp [hx]))
    simp only [List.cons_append]
    rw [splitOnZero_cons_ne c _ hc, ih2]

theorem splitOnZero_encodeMultiSz (segs : List (List Nat))
    (h : ∀ s ∈ segs, ∀ c ∈ s, c ≠ 0) :
    splitOnZero (encodeMultiSz segs) = segs ++ [[], []] := by
  induction segs with
  | nil => rfl
  | cons s rest ih =>
    have he : encodeMultiSz (s :: rest) = s ++ 0 :: encodeMultiSz rest := by
      simp [encodeMultiSz, flat2]
    rw [he, splitOnZero_append s _ (h s (by simp)),
      ih (fun t ht c hc => h t (by simp [ht]) c hc)]
    rfl

theorem mem_encodeMultiSz (segs : List (List Nat)) (u : Nat)
    (hu : u ∈ encodeMultiSz segs) : u = 0 ∨ ∃ s ∈ segs, u ∈ s := by
  induction segs with
  | nil =>
    simp [encodeMultiSz, flat2] at hu
    exact Or.inl hu
  | cons s rest ih =>
    have he : encodeMultiSz (s :: rest) = s ++ 0 :: encodeMultiSz rest := by
      simp [encodeMultiSz, flat2]
    rw [he] at hu
    rcases List.mem_append.mp hu with h1 | h2
    · exact Or.inr ⟨s, by simp, h1⟩
    · rcases List.mem_cons.mp h2 with h3 | h4
      · exact Or.inl h3
      · rcases ih h4 with h5 | ⟨t, ht, hut⟩
        · exact Or.inl h5
        · exact Or.inr ⟨t, by simp [ht], hut⟩

/-! ## Claim theorems -/

/-- Claim C6: multi-string property decoding is deterministic — decoding the
same raw byte buffer twice yields identical sequences — no empty segment ever
appears in the output, and on a well-formed MULTI_SZ buffer (null-separated
segments, trailing terminator) it recovers exactly the segments in order,
each decoded independently. -/
theorem multi_sz_deterministic_ordered_no_empty (buf : List Nat) (segs : List (List Nat)) :
    (∀ out out2, multi_sz_from_utf16_in_u8 buf = some out →
        multi_sz_from_utf16_in_u8 buf = some out2 → out = out2)
    ∧ (∀ out, multi_sz_from_utf16_in_u8 buf = some out → ∀ s ∈ out, s ≠ "")
    ∧ ((∀ s ∈ segs, s ≠ [] ∧ ∀ c ∈ s, c ≠ 0 ∧ c < 65536) →
        multi_sz_from_utf16_in_u8 (toBytes (encodeMultiSz segs)) = decodeSegs segs) := by
  refine ⟨?_, ?_, ?_⟩
  · intro out out2 h1 h2
    rw [h1] at h2
    exact Option.some.inj h2
  · intro out h s hs
    unfold multi_sz_from_utf16_in_u8 at h
    refine decodeSegs_no_empty _ out h ?_ s hs
    intro p hp
    have := (List.mem_filter.mp hp).2
    simp only [Bool.not_eq_true'] at this
    exact fun he => by simp [he] at this
  · intro hsegs
    have hbound : ∀ u ∈ encodeMultiSz segs, u < 65536 := by
      intro u hu
      rcases mem_encodeMultiSz segs u hu with h0 | ⟨s, hsm, hus⟩
      · omega
      · exact ((hsegs s hsm).2 u hus).2
    have hnz : ∀ s ∈ segs, ∀ c ∈ s, c ≠ 0 :=
      fun s hsm c hc => ((hsegs s hsm).2 c hc).1
    unfold multi_sz_from_utf16_in_u8
    rw [u16sOfBytes_toBytes _ hbound, splitOnZero_encodeMultiSz segs hnz,
      List.filter_append]
    have hkeep : segs.filter (fun p => !p.isEmpty) = segs := by
      refine List.filter_eq_self.mpr ?_
      intro s hsm
      have : s ≠ [] := (hsegs s hsm).1
      simp [List.isEmpty_iff, this]
    rw [hkeep]
    have hnilf : List.filter (fun p : List Nat => !p.isEmpty) [[], []] = [] := rfl
    rw [hnilf, List.append_nil]

/-- Claim C6 witness: the segment [65] survives an encode-decode round trip
as the one-element output ["A"], shown through the claim theorem. -/
theorem multi_sz_deterministic_ordered_no_empty_witness :
    multi_sz_from_utf16_in_u8 (toBytes (encodeMultiSz [[65]])) = some [String.mk [Char.ofNat 65]] := by
  have h := (multi_sz_deterministic_ordered_no_empty (toBytes (encodeMultiSz [[65]])) [[65]]).2.2
    (by decide)
  rw [h]
  decide

/-- Claim C7: the concrete UTF-16 buffer holding the null-separated,
trailing-terminated segments "USB\VID_1234", "HID_DEVICE_SYSTEM_GAME", ""
decodes to exactly the two non-empty segments in order, and the
game-controller filter accepts the decoded sequence. -/
theorem roundtrip_buffer_decodes_and_matches :
    multi_sz_from_utf16_in_u8
        (toBytes (strUnits "USB\\VID_1234" ++ [0] ++ strUnits "HID_DEVICE_SYSTEM_GAME" ++ [0, 0]))
      = some ["USB\\VID_1234", "HID_DEVICE_SYSTEM_GAME"]
    ∧ is_game_controller ["USB\\VID_1234", "HID_DEVICE_SYSTEM_GAME"] = true := by
  decide

/-- Claim C9: the status query maps CR_NO_SUCH_DEVNODE to status flags zero —
from which the derivation yields Disconnected — maps CR_SUCCESS to the
reported flags, and every other outcome to an error carrying the native
status code. -/
theorem status_query_maps_no_such_devnode_to_zero (ret flags : Nat) :
    (ret = CR_SUCCESS → device_status_flags ret flags = Except.ok flags)
    ∧ (ret = CR_NO_SUCH_DEVNODE →
        device_status_flags ret flags = Except.ok 0
        ∧ derive_status 0 = GameControllerStatus.Disconnected)
    ∧ (ret ≠ CR_SUCCESS → ret ≠ CR_NO_SUCH_DEVNODE →
        device_status_flags ret flags = Except.error (Error.ConfigRet ret)) := by
  refine ⟨?_, ?_, ?_⟩
  · intro h
    simp [device_status_flags, h]
  · intro h
    subst h
    exact ⟨by simp [device_status_flags, CR_NO_SUCH_DEVNODE, CR_SUCCESS], by simp [derive_status]⟩
  · intro h1 h2
    simp [device_status_flags, h1, h2]

/-- Claim C9 witness: at the concrete response CR_NO_SUCH_DEVNODE with
reported flags 7, the query returns flags zero and the derived status is
Disconnected. -/
theorem status_query_maps_no_such_devnode_to_zero_witness :
    device_status_flags CR_NO_SUCH_DEVNODE 7 = Except.ok 0
    ∧ derive_status 0 = GameControllerStatus.Disconnected :=
  (status_query_maps_no_such_devnode_to_zero CR_NO_SUCH_DEVNODE 7).2.1 rfl

/-- Claim C10 counterexample: the single-string decoder panics (models as
none) on the buffer holding a lone high surrogate before the terminator, the
multi-string decoder panics on the same buffer, and the single-string decoder
also panics on a non-empty buffer with no zero code unit. -/
theorem decoders_not_total_counterexample :
    from_utf16_in_u8 [0x00, 0xD8, 0x00, 0x00] = none
    ∧ multi_sz_from_utf16_in_u8 [0x00, 0xD8, 0x00, 0x00] = none
    ∧ from_utf16_in_u8 [65] = none := by
  decide

theorem findIdxQ_lt_length_from (p : Nat → Bool) :
    ∀ (l : List Nat) (s i : Nat), List.findIdx? p l s = some i → i < s + l.length := by
  intro l
  induction l with
  | nil => intro s i h; simp [List.findIdx?] at h
  | cons a rest ih =>
    intro s i h
    rw [List.findIdx?_cons] at h
    by_cases hp : p a
    · rw [if_pos hp] at h
      cases h
      simp
    · rw [if_neg hp] at h
      have := ih (s + 1) i h
      simp only [List.length_cons]
      omega

theorem findIdxQ_lt_length (p : Nat → Bool) (l : List Nat) (i : Nat)
    (h : l.findIdx? p = some i) : i < l.length := by
  have := findIdxQ_lt_length_from p l 0 i h
  omega

theorem decodeSegs_isSome (segs : List (List Nat))
    (h : ∀ p ∈ segs, (utf16DecodeList p).isSome = true) :
    (decodeSegs segs).isSome = true := by
  induction segs with
  | nil => rfl
  | cons s rest ih =>
    obtain ⟨cs, hcs⟩ := Option.isSome_iff_exists.mp (h s (by simp))
    obtain ⟨r, hr⟩ := Option.isSome_iff_exists.mp (ih (fun p hp => h p (by simp [hp])))
    unfold decodeSegs
    rw [hcs, hr]
    rfl

/-- Claim C10 amended: the decoders return a value whenever the content they
decode is valid UTF-16 — for the single-string decoder additionally the
buffer is empty or its u16 view contains a zero code unit; outside these
conditions the unwrap / slice indexing panics. -/
theorem decoders_return_on_valid_content (buf : List Nat)
    (hs : buf = [] ∨ ∃ i, (u16sOfBytes buf).findIdx? (fun c => c == 0) = some i
        ∧ (utf16DecodeList ((u16sOfBytes buf).take i)).isSome = true)
    (hm : ∀ p ∈ (splitOnZero (u16sOfBytes buf)).filter (fun p => !p.isEmpty),
        (utf16DecodeList p).isSome = true) :
    (from_utf16_in_u8 buf).isSome = true
    ∧ (multi_sz_from_utf16_in_u8 buf).isSome = true := by
  constructor
  · rcases hs with hnil | ⟨i, hi, hdec⟩
    · subst hnil
      rfl
    · obtain ⟨cs, hcs⟩ := Option.isSome_iff_exists.mp hdec
      show (if ((u16sOfBytes buf).findIdx? (fun c => c == 0)).getD buf.length ≤
            (u16sOfBytes buf).length then
          (utf16DecodeList ((u16sOfBytes buf).take
            (((u16sOfBytes buf).findIdx? (fun c => c == 0)).getD buf.length))).map
            (fun cs => String.mk cs)
        else none).isSome = true
      rw [hi]
      simp only [Option.getD_some]
      rw [if_pos (le_of_lt (findIdxQ_lt_length _ _ i hi)), hcs]
      rfl
  · exact decodeSegs_isSome _ hm

/-- Claim C10 amended witness: on the buffer encoding "A" with its null
terminator both decoders return a value. -/
theorem decoders_return_on_valid_content_witness :
    (from_utf16_in_u8 (toBytes [65, 0])).isSome = true
    ∧ (multi_sz_from_utf16_in_u8 (toBytes [65, 0])).isSome = true :=
  decoders_return_on_valid_content (toBytes [65, 0])
    (Or.inr ⟨1, by decide, by decide⟩) (by decide)

/-- Claim C2: the list operation destroys the device set it acquired, but
enable and disable acquire a device set and return without ever destroying
it, on their not-found path as well as on their success path — the lifecycle
trace of each contains the acquisition and no release. -/
theorem enable_disable_leak_device_set :
    (enable_device emptyEnv "x").2 = [Ev.acquire]
    ∧ (disable_device emptyEnv "x").2 = [Ev.acquire]
    ∧ Ev.destroy ∉ (enable_device emptyEnv "x").2
    ∧ Ev.destroy ∉ (disable_device emptyEnv "x").2
    ∧ (enable_device { emptyEnv with nodes := [fullNode] }
        (String.mk [Char.ofNat 67, Char.ofNat 0])).1 = some (Except.ok ())
    ∧ (enable_device { emptyEnv with nodes := [fullNode] }
        (String.mk [Char.ofNat 67, Char.ofNat 0])).2 = [Ev.acquire]
    ∧ (game_controllers emptyEnv).2 = [Ev.acquire, Ev.destroy] := by
  decide

/-- Claim C4: the description and manufacturer buffers are decoded up to and
excluding the first null code unit, but the instance-id buffer is decoded
whole, so the returned instance id keeps the trailing null terminator the
platform wrote — shown on the buffer holding "A" plus its terminator. -/
theorem instance_id_keeps_null_terminator :
    device_instance_id instIdReadA = Except.ok (String.mk [Char.ofNat 65, Char.ofNat 0])
    ∧ Char.ofNat 0 ∈ (String.mk [Char.ofNat 65, Char.ofNat 0]).data
    ∧ String.mk [Char.ofNat 65, Char.ofNat 0] ≠ String.mk [Char.ofNat 65]
    ∧ from_utf16_in_u8 (toBytes [65, 0]) = some (String.mk [Char.ofNat 65]) := by
  decide

/-- Claim C5 counterexample: a node that passes the hardware-id filter but
whose description buffer holds malformed UTF-16 makes the whole list call
panic — the well-behaved node of the same enumeration is not returned and the
device set is never destroyed. -/
theorem malformed_property_aborts_list :
    hwid_filter badNode = some true
    ∧ GameController.try_from_devinfo badNode = none
    ∧ game_controllers envPanic = (none, [Ev.acquire]) := by
  decide

theorem hwid_filter_eq_some_true (n : DevNode) :
    hwid_filter n = some true ↔
      ∃ l, device_prop_multi_sz n.hwidRead = some (Except.ok l)
        ∧ "HID_DEVICE_SYSTEM_GAME" ∈ l := by
  unfold hwid_filter
  cases h : device_prop_multi_sz n.hwidRead with
  | none => simp
  | some r =>
    cases r with
    | ok l =>
      simp only [Option.map_some', Option.some.injEq, Except.ok.injEq]
      constructor
      · intro hg
        refine ⟨l, ⟨rfl, ?_⟩⟩
        rcases List.any_eq_true.mp hg with ⟨s, hs, hb⟩
        have hseq : s = "HID_DEVICE_SYSTEM_GAME" := beq_iff_eq.mp hb
        rw [← hseq]
        exact hs
      · rintro ⟨l2, hl2, hmem⟩
        subst hl2
        exact List.any_eq_true.mpr ⟨_, hmem, beq_self_eq_true _⟩
    | error e => simp

theorem enum_eq_filter (nodes : List DevNode)
    (h : ∀ n ∈ nodes, hwid_filter n ≠ none) :
    enum_game_controllers nodes
      = some (nodes.filter (fun n => decide (hwid_filter n = some true))) := by
  induction nodes with
  | nil => rfl
  | cons n rest ih =>
    have hn := h n (by simp)
    have ih2 := ih (fun m hm => h m (by simp [hm]))
    unfold enum_game_controllers
    rw [ih2]
    cases hf : hwid_filter n with
    | none => exact absurd hf hn
    | some b =>
      cases b with
      | false => simp [List.filter_cons, hf]
      | true => simp [List.filter_cons, hf]

/-- Claim C8: run to completion, the enumeration yields exactly the nodes
whose hardware-id multi-string property reads successfully and contains the
marker "HID_DEVICE_SYSTEM_GAME"; a node whose property cannot be read, or
whose list lacks the marker, is skipped silently rather than yielded or
reported as an error. -/
theorem enum_yields_exactly_marker_nodes (nodes : List DevNode)
    (hnp : ∀ n ∈ nodes, hwid_filter n ≠ none) :
    enum_game_controllers nodes
      = some (nodes.filter (fun n => decide (hwid_filter n = some true)))
    ∧ ∀ n ∈ nodes,
        (n ∈ nodes.filter (fun n => decide (hwid_filter n = some true)) ↔
          ∃ l, device_prop_multi_sz n.hwidRead = some (Except.ok l)
            ∧ "HID_DEVICE_SYSTEM_GAME" ∈ l) := by
  refine ⟨enum_eq_filter nodes hnp, ?_⟩
  intro n hn
  rw [List.mem_filter]
  constructor
  · intro ⟨_, hdec⟩
    exact (hwid_filter_eq_some_true n).mp (of_decide_eq_true hdec)
  · intro hex
    exact ⟨hn, decide_eq_true ((hwid_filter_eq_some_true n).mpr hex)⟩

/-- Claim C8 witness: a set holding one marker-bearing node and one node
whose hardware-id property is unreadable enumerates to exactly the
marker-bearing node. -/
theorem enum_yields_exactly_marker_nodes_witness :
    enum_game_controllers [fullNode, noMarkNode] = some [fullNode] := by
  have h := (enum_yields_exactly_marker_nodes [fullNode, noMarkNode] (by decide)).1
  rw [h]
  decide

theorem collect_eq_collectOk (nodes : List DevNode)
    (h : ∀ n ∈ nodes, hwid_filter n ≠ none
        ∧ (hwid_filter n = some true → GameController.try_from_devinfo n ≠ none)) :
    collect_game_controllers nodes = some (collectOk nodes) := by
  induction nodes with
  | nil => rfl
  | cons n rest ih =>
    obtain ⟨h1, h2⟩ := h n (by simp)
    have ih2 := ih (fun m hm => h m (by simp [hm]))
    unfold collect_game_controllers
    cases hf : hwid_filter n with
    | none => exact absurd hf h1
    | some b =>
      cases b with
      | false =>
        rw [ih2]
        have : collectOk (n :: rest) = collectOk rest := by
          simp [collectOk, List.filterMap_cons, hf]
        rw [this]
      | true =>
        cases ht : GameController.try_from_devinfo n with
        | none => exact absurd ht (h2 hf)
        | some r =>
          cases r with
          | error e =>
            rw [ih2]
            have : collectOk (n :: rest) = collectOk rest := by
              simp [collectOk, List.filterMap_cons, hf, ht]
            rw [this]
          | ok gc =>
            rw [ih2]
            have : collectOk (n :: rest) = gc :: collectOk rest := by
              simp [collectOk, List.filterMap_cons, hf, ht]
            rw [this]

/-- Claim C5 amended: for nodes that passed the hardware-id filter, a
property-resolution failure surfaced as an error value is confined to that
node — the node is dropped and the remaining records are still returned with
the set destroyed — but malformed text in a property buffer panics and aborts
the whole list call instead of being confined to the node. -/
theorem list_drops_error_value_nodes (env : Env)
    (hacq : env.acquireRet = Except.ok ())
    (hdes : env.destroyRet = Except.ok ())
    (hnp : ∀ n ∈ env.nodes, hwid_filter n ≠ none
        ∧ (hwid_filter n = some true → GameController.try_from_devinfo n ≠ none)) :
    game_controllers env = (some (Except.ok (collectOk env.nodes)), [Ev.acquire, Ev.destroy]) := by
  unfold game_controllers
  rw [hacq, collect_eq_collectOk env.nodes hnp, hdes]

/-- Claim C5 amended witness: an enumeration holding a node whose description
property read fails with an error value followed by a well-behaved node
returns exactly the well-behaved node's record. -/
theorem list_drops_error_value_nodes_witness :
    game_controllers envDrop = (some (Except.ok [gcVal]), [Ev.acquire, Ev.destroy]) := by
  have h := list_drops_error_value_nodes envDrop rfl rfl (by decide)
  rw [h]
  decide

theorem devinfo_data_eq_find (nodes : List DevNode) (id : String)
    (h : ∀ n ∈ nodes, hwid_filter n ≠ none) :
    devinfo_data nodes id = some (nodes.find? (matchesId id)) := by
  induction nodes with
  | nil => rfl
  | cons n rest ih =>
    have hn := h n (by simp)
    have ih2 := ih (fun m hm => h m (by simp [hm]))
    unfold devinfo_data
    cases hf : hwid_filter n with
    | none => exact absurd hf hn
    | some b =>
      cases b with
      | false =>
        have hm : matchesId id n = false := by
          simp [matchesId, hf]
        rw [List.find?_cons_of_neg _ (by simp [hm]), ih2]
      | true =>
        cases hins : device_instance_id n.instIdRead with
        | error e =>
          have hm : matchesId id n = false := by
            simp [matchesId, hins]
          rw [List.find?_cons_of_neg _ (by simp [hm]), ih2]
        | ok iid =>
          by_cases hid : iid = id
          · subst hid
            have hm : matchesId iid n = true := by
              simp [matchesId, hf, hins]
            rw [List.find?_cons_of_pos _ (by simp [hm])]
            show (if iid = iid then some (some n) else devinfo_data rest iid) = some (some n)
            rw [if_pos rfl]
          · have hm : matchesId id n = false := by
              simp [matchesId, hins, hid]
            rw [List.find?_cons_of_neg _ (by simp [hm]), ih2]
            show (if iid = id then some (some n)
                else some (List.find? (matchesId id) rest))
              = some (List.find? (matchesId id) rest)
            rw [if_neg hid]

/-- Claim C3: once the device set is acquired and the enumeration completes,
an argument matching no filter-passing node's resolved instance id makes both
enable and disable return NotFound — never a platform error — and when a
match exists, the first matching node of the enumeration is the one the
configuration-manager call is issued against. -/
theorem enable_disable_notfound_or_first_match (env : Env) (id : String)
    (hacq : env.acquireRet = Except.ok ())
    (hnp : ∀ n ∈ env.nodes, hwid_filter n ≠ none) :
    (env.nodes.find? (matchesId id) = none →
      enable_device env id = (some (Except.error Error.NotFound), [Ev.acquire])
      ∧ disable_device env id = (some (Except.error Error.NotFound), [Ev.acquire]))
    ∧ (∀ n, env.nodes.find? (matchesId id) = some n →
      enable_device env id =
        (some (if n.cmEnableRet = CR_SUCCESS then Except.ok ()
          else Except.error (Error.ConfigRet n.cmEnableRet)), [Ev.acquire])
      ∧ disable_device env id =
        (some (if n.cmDisableRet = CR_SUCCESS then Except.ok ()
          else Except.error (Error.ConfigRet n.cmDisableRet)), [Ev.acquire])) := by
  have hd := devinfo_data_eq_find env.nodes id hnp
  constructor
  · intro hfind
    rw [hfind] at hd
    constructor
    · unfold enable_device
      rw [hacq, hd]
    · unfold disable_device
      rw [hacq, hd]
  · intro n hfind
    rw [hfind] at hd
    constructor
    · unfold enable_device
      rw [hacq, hd]
      show (if n.cmEnableRet = CR_SUCCESS
            then ((some (Except.ok ()) : Option (Except Error Unit)), [Ev.acquire])
            else (some (Except.error (Error.ConfigRet n.cmEnableRet)), [Ev.acquire]))
        = (some (if n.cmEnableRet = CR_SUCCESS then Except.ok ()
            else Except.error (Error.ConfigRet n.cmEnableRet)), [Ev.acquire])
      by_cases hc : n.cmEnableRet = CR_SUCCESS
      · rw [if_pos hc, if_pos hc]
      · rw [if_neg hc, if_neg hc]
    · unfold disable_device
      rw [hacq, hd]
      show (if n.cmDisableRet = CR_SUCCESS
            then ((some (Except.ok ()) : Option (Except Error Unit)), [Ev.acquire])
            else (some (Except.error (Error.ConfigRet n.cmDisableRet)), [Ev.acquire]))
        = (some (if n.cmDisableRet = CR_SUCCESS then Except.ok ()
            else Except.error (Error.ConfigRet n.cmDisableRet)), [Ev.acquire])
      by_cases hc : n.cmDisableRet = CR_SUCCESS
      · rw [if_pos hc, if_pos hc]
      · rw [if_neg hc, if_neg hc]

/-- Claim C3 witness: on an acquired empty device set, enabling an id that
matches nothing returns NotFound. -/
theorem enable_disable_notfound_or_first_match_witness :
    enable_device emptyEnv "x" = (some (Except.error Error.NotFound), [Ev.acquire]) :=
  ((enable_disable_notfound_or_first_match emptyEnv "x" rfl (by decide)).1 rfl).1

/-- Claim C1: any GameController record a node constructs to derives its
status and disableable flag from the queried status bitflags by the reference
derivation — zero flags give Disconnected and a false disableable flag, a
non-zero flag set lacking the DN_STARTED bit gives Disabled, a flag set with
DN_STARTED gives Enabled, and disableable holds exactly when the
DN_DISABLEABLE bit is set. -/
theorem status_and_disableable_derivation (n : DevNode) (gc : GameController) (f : Nat)
    (h : GameController.try_from_devinfo n = some (Except.ok gc))
    (hf : device_status_flags n.statusRet n.statusFlags = Except.ok f) :
    (f = 0 → gc.status = GameControllerStatus.Disconnected ∧ gc.disableable = false)
    ∧ (f ≠ 0 → f &&& DN_STARTED = 0 → gc.status = GameControllerStatus.Disabled)
    ∧ (f &&& DN_STARTED ≠ 0 → gc.status = GameControllerStatus.Enabled)
    ∧ (gc.disableable = true ↔ f &&& DN_DISABLEABLE ≠ 0) := by
  unfold GameController.try_from_devinfo at h
  split at h
  · exact Option.noConfusion h
  · exact absurd h (by simp)
  · split at h
    · exact Option.noConfusion h
    · exact absurd h (by simp)
    · split at h
      · exact absurd h (by simp)
      · split at h
        · exact absurd h (by simp)
        · rename_i fl hfl
          rw [hf] at hfl
          have hfe : f = fl := Except.ok.inj hfl
          subst hfe
          have hgc := (Except.ok.inj (Option.some.inj h)).symm
          subst hgc
          refine ⟨?_, ?_, ?_, ?_⟩
          · intro h0
            subst h0
            refine ⟨by simp [derive_status], ?_⟩
            show (0 &&& DN_DISABLEABLE != 0) = false
            decide
          · intro hne hstart
            simp [derive_status, hne, hstart]
          · intro hstart
            have hne : f ≠ 0 := by
              intro h0
              subst h0
              exact hstart (by decide)
            simp [derive_status, hne, hstart]
          · simp [bne_iff_ne]

/-- Claim C1 witness: the concrete node with status flags DN_STARTED plus
DN_DISABLEABLE constructs to a record whose status is Enabled and whose
disableable flag is set. -/
theorem status_and_disableable_derivation_witness :
    GameController.try_from_devinfo fullNode = some (Except.ok gcVal)
    ∧ gcVal.status = GameControllerStatus.Enabled
    ∧ gcVal.disableable = true := by
  have h1 : GameController.try_from_devinfo fullNode = some (Except.ok gcVal) := by decide
  have h2 : device_status_flags fullNode.statusRet fullNode.statusFlags = Except.ok 0x2008 := by
    decide
  have hc := status_and_disableable_derivation fullNode gcVal 0x2008 h1 h2
  exact ⟨h1, hc.2.2.1 (by decide), hc.2.2.2.mpr (by decide)⟩

end Nojoy
